import Mathlib

/-!
Verification of the food-delivery backend (src/main.py, src/schemas.py).

The service keeps four document collections (restaurant, menuitem, cart,
order) in a MongoDB store and exposes HTTP handlers over them.  The store
is embedded as explicit state (`DB`): each collection is the list of its
documents in insertion (natural) order, and generated ObjectIds are drawn
from a monotone counter `nextId`.  `find_one` is `List.find?` (first match
in natural order), `update_one` updates the first matching document, and
`insert_one` appends.  Handlers become functions `DB → args → result × DB`;
an `HTTPException` raised by a handler becomes an `Except.error` paired
with the untouched state.

Floating-point fields (`price`, `total`, `rating`, `delivery_fee`) carry
values that the verified operations never do arithmetic on — they are
stored and returned unchanged — so they are embedded as exact rationals.
-/

namespace FoodDelivery

/-! ## Data model (src/schemas.py) -/

/-- schemas.py `CartItem`: denormalized snapshot of a menu item placed in a
cart.  `quantity: int = Field(1, ge=1)`. -/
structure CartItem where
  restaurant_id : String
  menu_item_id : String
  name : String
  price : Rat
  quantity : Int
deriving DecidableEq, Repr

/-- The pydantic field constraint `ge=1` on `CartItem.quantity`
(src/schemas.py line 43): every `CartItem` parsed from a request body
satisfies it, or the request is rejected before reaching a handler. -/
def CartItem.pydanticValid (i : CartItem) : Prop := 1 ≤ i.quantity

instance (i : CartItem) : Decidable i.pydanticValid := by
  unfold CartItem.pydanticValid; infer_instance

/-- schemas.py `Restaurant` (request body; the stored document adds `_id`). -/
structure RestaurantIn where
  name : String
  cuisine : String
  image_url : Option String
  rating : Rat
  delivery_time_min : Int
  delivery_fee : Rat
  address : Option String
deriving DecidableEq, Repr

/-- A document of the `restaurant` collection. -/
structure RestaurantDoc extends RestaurantIn where
  _id : Nat
deriving DecidableEq, Repr

/-- schemas.py `MenuItem` (request body). -/
structure MenuItemIn where
  restaurant_id : String
  name : String
  description : Option String
  price : Rat
  image_url : Option String
  is_veg : Bool
  spicy_level : Int
deriving DecidableEq, Repr

/-- A document of the `menuitem` collection. -/
structure MenuItemDoc extends MenuItemIn where
  _id : Nat
deriving DecidableEq, Repr

/-- A document of the `cart` collection, keyed by `user_id`.  The handlers
only ever read and write `_id`, `user_id` and `items` (the
`created_at`/`updated_at` fields that `get_cart` writes as `None` on lazy
creation are never read and are omitted). -/
structure CartDoc where
  _id : Nat
  user_id : String
  items : List CartItem
deriving DecidableEq, Repr

/-- schemas.py `Order` (request body).  `status` is a plain `str` with
default "placed"; pydantic does not restrict it to the documented
enumeration, so any string reaches the handler unchanged. -/
structure OrderIn where
  user_id : String
  restaurant_id : String
  items : List CartItem
  total : Rat
  status : String
  address : String
deriving DecidableEq, Repr

/-- A document of the `order` collection: the serialized `Order` plus the
generated `_id` and the creation stamp `created_at` that `list_orders`
sorts on (see `create_document_order`). -/
structure OrderDoc extends OrderIn where
  _id : Nat
  created_at : Nat
deriving DecidableEq, Repr

/-- The document store: one list of documents per collection, in natural
(insertion) order, plus the counter from which generated ObjectIds are
drawn. -/
structure DB where
  restaurants : List RestaurantDoc
  menuitems : List MenuItemDoc
  carts : List CartDoc
  orders : List OrderDoc
  nextId : Nat
deriving DecidableEq, Repr

/-- fastapi.HTTPException as raised by the handlers. -/
structure HTTPError where
  status_code : Nat
  detail : String
deriving DecidableEq, Repr

/-! ## Helper (src/main.py lines 59-63) -/

/-- Value of one hexadecimal digit, `none` for any other character. -/
def hexVal (c : Char) : Option Nat :=
  if '0' ≤ c ∧ c ≤ '9' then some (c.toNat - '0'.toNat)
  else if 'a' ≤ c ∧ c ≤ 'f' then some (c.toNat - 'a'.toNat + 10)
  else if 'A' ≤ c ∧ c ≤ 'F' then some (c.toNat - 'A'.toNat + 10)
  else none

/-- Big-endian hexadecimal parse of a character list. -/
def parseHexChars : List Char → Nat → Option Nat
  | [], acc => some acc
  | c :: cs, acc =>
    match hexVal c with
    | some v => parseHexChars cs (16 * acc + v)
    | none => none

/-- `to_object_id(id_str)` (main.py lines 59-63): `bson.ObjectId(id_str)`
succeeds on a string input exactly when it is a 24-character hexadecimal
string, and the resulting ObjectId is its value as bytes.  Embedded as an
`Option`: `some oid` is the parsed ObjectId (its numeric value), `none`
is the raised `HTTPException(400, "Invalid id format")`. -/
def to_object_id (s : String) : Option Nat :=
  if s.length = 24 then parseHexChars s.data 0 else none

/-- The 400 error `to_object_id` raises on a malformed identifier. -/
def invalidIdError : HTTPError := { status_code := 400, detail := "Invalid id format" }

/-! ## Document store adapter -/

/-- Modelled from the spec: `database.py` (the `create_document` helper
imported by main.py) is not under src/.  Per spec §4.1, `create` serializes
the record fields to a document, inserts it, and returns the generated
unique id.  The generated id is modelled by the store counter.  The
document additionally records its creation time — the `created_at` field
that `list_orders` (main.py line 191) sorts on and spec §4.4 describes as
the order of creation — modelled by the same monotone counter, so later
insertions always carry strictly larger `created_at`.  This is the variant
for the `order` collection. -/
def create_document_order (db : DB) (o : OrderIn) : Nat × DB :=
  (db.nextId,
    { db with
      orders := db.orders ++ [{ toOrderIn := o, _id := db.nextId, created_at := db.nextId }],
      nextId := db.nextId + 1 })

/-- Modelled from the spec: `create_document` for the `menuitem`
collection (see `create_document_order` for the provenance): serialize,
insert, return the generated id. -/
def create_document_menuitem (db : DB) (m : MenuItemIn) : Nat × DB :=
  (db.nextId,
    { db with
      menuitems := db.menuitems ++ [{ toMenuItemIn := m, _id := db.nextId }],
      nextId := db.nextId + 1 })

/-- `update_one` semantics: replace the first element satisfying `p` by its
image under `f`; leave the list unchanged when nothing matches. -/
def updateFirst {α : Type} (p : α → Bool) (f : α → α) : List α → List α
  | [] => []
  | c :: cs => if p c then f c :: cs else c :: updateFirst p f cs

/-! ## Cart handlers (src/main.py lines 145-176) -/

/-- The response dict of the cart endpoints: the cart document with its
`_id` renamed to `id` (main.py line 151). -/
structure CartResp where
  id : Nat
  user_id : String
  items : List CartItem
deriving DecidableEq, Repr

/-- `get_cart(user_id)` (main.py lines 145-152): `find_one` the cart for
`user_id`; if absent, insert a fresh one with empty items; return the
document with `id := str(_id)`. -/
def get_cart (db : DB) (user_id : String) : CartResp × DB :=
  match db.carts.find? (fun c => c.user_id == user_id) with
  | some cart => ({ id := cart._id, user_id := cart.user_id, items := cart.items }, db)
  | none =>
    let cart : CartDoc := { _id := db.nextId, user_id := user_id, items := [] }
    ({ id := cart._id, user_id := cart.user_id, items := cart.items },
      { db with carts := db.carts ++ [cart], nextId := db.nextId + 1 })

/-- The cart upsert of `add_to_cart` (main.py lines 164-169):
`update_one({user_id}, {$setOnInsert: {user_id}, $push: {items: item}},
upsert=True)` — push onto the first matching cart, or insert
`{user_id, items: [item]}` when none matches. -/
def cartUpsertPush (db : DB) (user_id : String) (item : CartItem) : DB :=
  if (db.carts.find? (fun c => c.user_id == user_id)).isSome then
    { db with
      carts := updateFirst (fun c => c.user_id == user_id)
        (fun c => { c with items := c.items ++ [item] }) db.carts }
  else
    { db with
      carts := db.carts ++ [{ _id := db.nextId, user_id := user_id, items := [item] }],
      nextId := db.nextId + 1 }

/-- `add_to_cart(user_id, item)` (main.py lines 155-170). -/
def add_to_cart (db : DB) (user_id : String) (item : CartItem) :
    Except HTTPError CartResp × DB :=
  if item.quantity < 1 then
    (.error { status_code := 400, detail := "Quantity must be at least 1" }, db)
  else
    match to_object_id item.menu_item_id with
    | none => (.error invalidIdError, db)
    | some mid =>
      if (db.menuitems.find? (fun m => m._id == mid)).isSome then
        let db1 := cartUpsertPush db user_id item
        let r := get_cart db1 user_id
        (.ok r.1, r.2)
      else (.error { status_code := 404, detail := "Menu item not found" }, db)

/-- `clear_cart(user_id)` (main.py lines 173-176): `update_one({user_id},
{$set: {items: []}})` (no upsert — a no-op when the cart is absent), then
return `get_cart(user_id)`. -/
def clear_cart (db : DB) (user_id : String) : CartResp × DB :=
  let db1 :=
    { db with
      carts := updateFirst (fun c => c.user_id == user_id)
        (fun c => { c with items := [] }) db.carts }
  get_cart db1 user_id

/-- The item sequence of the cart document `find_one` returns for a user
(empty when no cart document exists). -/
def userCartItems (db : DB) (u : String) : List CartItem :=
  match db.carts.find? (fun c => c.user_id == u) with
  | some c => c.items
  | none => []

/-! ## Catalog handler (src/main.py lines 125-131) -/

/-- `create_menu_item(item)` (main.py lines 125-131): parse
`restaurant_id`, 404 unless a restaurant with that `_id` exists, then
insert and return `{id}`. -/
def create_menu_item (db : DB) (item : MenuItemIn) : Except HTTPError Nat × DB :=
  match to_object_id item.restaurant_id with
  | none => (.error invalidIdError, db)
  | some rid =>
    if (db.restaurants.find? (fun r => r._id == rid)).isSome then
      let r := create_document_menuitem db item
      (.ok r.1, r.2)
    else (.error { status_code := 404, detail := "Restaurant not found" }, db)

/-! ## Order handlers (src/main.py lines 181-194) -/

/-- The response of `place_order`: `{"id": inserted_id, "status": "placed"}`. -/
structure PlaceOrderResp where
  id : Nat
  status : String
deriving DecidableEq, Repr

/-- `place_order(order)` (main.py lines 181-186): parse `restaurant_id`
(400 on malformed), insert the order via `create_document`, then clear the
items of the first cart matching `order.user_id` (`$set` without upsert),
and answer `{id, status: "placed"}`. -/
def place_order (db : DB) (order : OrderIn) : Except HTTPError PlaceOrderResp × DB :=
  match to_object_id order.restaurant_id with
  | none => (.error invalidIdError, db)
  | some _ =>
    let r := create_document_order db order
    let db2 :=
      { r.2 with
        carts := updateFirst (fun c => c.user_id == order.user_id)
          (fun c => { c with items := [] }) r.2.carts }
    (.ok { id := r.1, status := "placed" }, db2)

/-- The descending creation-time comparison `sort("created_at", -1)` uses:
`a` may precede `b` exactly when the creation stamp of `b` is at most that
of `a`. -/
def createdDesc (a b : OrderDoc) : Prop := b.created_at ≤ a.created_at

instance : DecidableRel createdDesc := fun a b => by
  unfold createdDesc; infer_instance

instance : IsTotal OrderDoc createdDesc :=
  ⟨fun a b => Nat.le_total b.created_at a.created_at⟩

instance : IsTrans OrderDoc createdDesc :=
  ⟨fun _ _ _ h1 h2 => Nat.le_trans h2 h1⟩

/-- `list_orders(user_id)` (main.py lines 189-194): the documents of the
`order` collection matching `user_id`, sorted by `created_at` descending.
The store sorts by the requested key; the embedding realises that sort
with insertion sort, a correct sort for the same comparison. -/
def list_orders (db : DB) (user_id : String) : List OrderDoc :=
  List.insertionSort createdDesc (db.orders.filter (fun o => o.user_id == user_id))

/-! ## Concrete sample data (for evaluating the theorems on closed inputs) -/

/-- A well-formed 24-character hexadecimal ObjectId string (value 0). -/
def oid24 : String := "000000000000000000000000"

/-- A malformed identifier (not 24 hexadecimal characters). -/
def oidBad : String := "nope"

/-- The store before any request. -/
def emptyDB : DB :=
  { restaurants := [], menuitems := [], carts := [], orders := [], nextId := 0 }

def restaurant0 : RestaurantIn :=
  { name := "Sunset Pizzeria", cuisine := "Italian", image_url := none, rating := 4,
    delivery_time_min := 30, delivery_fee := 3, address := some "123 Main St" }

def restaurantDoc0 : RestaurantDoc := { toRestaurantIn := restaurant0, _id := 0 }

def menuItemIn0 : MenuItemIn :=
  { restaurant_id := oid24, name := "Margherita Pizza", description := some "Classic",
    price := 12, image_url := none, is_veg := true, spicy_level := 0 }

def menuItemDoc0 : MenuItemDoc := { toMenuItemIn := menuItemIn0, _id := 0 }

/-- A store holding one restaurant (ObjectId 0) and one menu item
(ObjectId 0), both reachable through the string `oid24`. -/
def db0 : DB :=
  { restaurants := [restaurantDoc0], menuitems := [menuItemDoc0], carts := [], orders := [],
    nextId := 1 }

def item0 : CartItem :=
  { restaurant_id := oid24, menu_item_id := oid24, name := "Margherita Pizza", price := 12,
    quantity := 2 }

/-- `item0` with the quantity forced below 1. -/
def item0q0 : CartItem := { item0 with quantity := 0 }

def order0 : OrderIn :=
  { user_id := "u1", restaurant_id := oid24, items := [item0], total := 24,
    status := "pending", address := "123 Main St" }

/-- `order0` with a malformed restaurant id. -/
def orderBad : OrderIn := { order0 with restaurant_id := oidBad }

/-- `menuItemIn0` with a malformed restaurant id. -/
def menuItemInBad : MenuItemIn := { menuItemIn0 with restaurant_id := oidBad }

/-- `menuItemIn0` with a well-formed restaurant id (value 1) that no stored
restaurant carries. -/
def menuItemInMissing : MenuItemIn :=
  { menuItemIn0 with restaurant_id := "000000000000000000000001" }

/-- `item0` with a well-formed menu item id (value 1) that no stored menu
item carries. -/
def item0Missing : CartItem := { item0 with menu_item_id := "000000000000000000000001" }

/-- The seeded store after user "u1" added `item0` to the cart. -/
def dbCart : DB := (add_to_cart db0 "u1" item0).2

/-- `dbCart` after user "u1" placed `order0`. -/
def dbPlaced : DB := (place_order dbCart order0).2

/-! ## Helper lemmas about the store primitives -/

theorem updateFirst_of_find?_none {α : Type} (p : α → Bool) (f : α → α) :
    ∀ l : List α, l.find? p = none → updateFirst p f l = l := by
  intro l
  induction l with
  | nil => intro _; rfl
  | cons c cs ih =>
    intro h
    by_cases hc : p c = true
    · rw [List.find?_cons_of_pos _ hc] at h
      exact absurd h (by simp)
    · rw [List.find?_cons_of_neg _ hc] at h
      simp [updateFirst, hc, ih h]

theorem find?_updateFirst {α : Type} (p : α → Bool) (f : α → α)
    (hf : ∀ a, p a = true → p (f a) = true) :
    ∀ l : List α, (updateFirst p f l).find? p = (l.find? p).map f := by
  intro l
  induction l with
  | nil => rfl
  | cons c cs ih =>
    by_cases hc : p c = true
    · have h1 : updateFirst p f (c :: cs) = f c :: cs := by simp [updateFirst, hc]
      rw [h1, List.find?_cons_of_pos _ (hf c hc), List.find?_cons_of_pos _ hc]
      rfl
    · have h1 : updateFirst p f (c :: cs) = c :: updateFirst p f cs := by
        simp [updateFirst, hc]
      rw [h1, List.find?_cons_of_neg _ hc, List.find?_cons_of_neg _ hc, ih]

theorem get_cart_of_find? (db : DB) (u : String) (cd : CartDoc)
    (h : db.carts.find? (fun c => c.user_id == u) = some cd) :
    get_cart db u = ({ id := cd._id, user_id := cd.user_id, items := cd.items }, db) := by
  simp [get_cart, h]

theorem get_cart_of_find?_none (db : DB) (u : String)
    (h : db.carts.find? (fun c => c.user_id == u) = none) :
    get_cart db u =
      ({ id := db.nextId, user_id := u, items := [] },
        { db with
          carts := db.carts ++ [{ _id := db.nextId, user_id := u, items := [] }],
          nextId := db.nextId + 1 }) := by
  simp [get_cart, h]

theorem find?_append_singleton_self (l : List CartDoc) (u : String) (cd : CartDoc)
    (h : l.find? (fun c => c.user_id == u) = none) (hcd : cd.user_id = u) :
    (l ++ [cd]).find? (fun c => c.user_id == u) = some cd := by
  rw [List.find?_append, h]
  simp [hcd]

/-! ## Claim theorems -/

/-- C1: for every user id, `get_cart` returns a cart document for that
user; if no cart document exists for the user id, it creates one with an
empty item sequence and returns it; and a repeated call for the same user
id returns a cart with the same id and leaves the store unchanged, so
second and later calls never create a duplicate cart document. -/
theorem getCart_get_or_create (db : DB) (u : String) :
    (get_cart db u).1.user_id = u ∧
    ((get_cart db u).2.carts.find? (fun c => c.user_id == u) =
      some { _id := (get_cart db u).1.id, user_id := u, items := (get_cart db u).1.items }) ∧
    (db.carts.find? (fun c => c.user_id == u) = none → (get_cart db u).1.items = []) ∧
    (get_cart (get_cart db u).2 u).1.id = (get_cart db u).1.id ∧
    (get_cart (get_cart db u).2 u).2 = (get_cart db u).2 := by
  cases h : db.carts.find? (fun c => c.user_id == u) with
  | some c =>
    obtain ⟨cid, cu, citems⟩ := c
    have hb : (cu == u) = true := by simpa using List.find?_some h
    have hc : cu = u := eq_of_beq hb
    subst hc
    rw [get_cart_of_find? db cu _ h]
    refine ⟨rfl, h, ?_, ?_, ?_⟩
    · intro hn; simp at hn
    · rw [get_cart_of_find? db cu _ h]
    · rw [get_cart_of_find? db cu _ h]
  | none =>
    rw [get_cart_of_find?_none db u h]
    have hfind := find?_append_singleton_self db.carts u
      { _id := db.nextId, user_id := u, items := [] } h rfl
    refine ⟨rfl, hfind, fun _ => rfl, ?_, ?_⟩
    · rw [get_cart_of_find? _ u _ hfind]
    · rw [get_cart_of_find? _ u _ hfind]

/-- Evaluation of `getCart_get_or_create` on a concrete store: starting
from the empty store, the first call for user "u1" returns an empty cart
and the second call returns the same id without touching the store. -/
theorem getCart_get_or_create_witness :
    (get_cart emptyDB "u1").1.items = [] ∧
    (get_cart (get_cart emptyDB "u1").2 "u1").1.id = (get_cart emptyDB "u1").1.id ∧
    (get_cart (get_cart emptyDB "u1").2 "u1").2 = (get_cart emptyDB "u1").2 :=
  ⟨(getCart_get_or_create emptyDB "u1").2.2.1 (by decide),
    (getCart_get_or_create emptyDB "u1").2.2.2.1,
    (getCart_get_or_create emptyDB "u1").2.2.2.2⟩

/-- C6: `add_to_cart` rejects any cart item whose quantity is below 1 with
the 400 InvalidArgument error and returns the store unchanged (no write
occurs). -/
theorem addItem_rejects_low_quantity (db : DB) (u : String) (i : CartItem)
    (h : i.quantity < 1) :
    add_to_cart db u i =
      (.error { status_code := 400, detail := "Quantity must be at least 1" }, db) := by
  simp [add_to_cart, h]

/-- Evaluation of `addItem_rejects_low_quantity` at quantity 0 on the
seeded store. -/
theorem addItem_rejects_low_quantity_witness :
    add_to_cart db0 "u1" item0q0 =
      (.error { status_code := 400, detail := "Quantity must be at least 1" }, db0) :=
  addItem_rejects_low_quantity db0 "u1" item0q0 (by decide)

theorem cartUpsertPush_find? (db : DB) (u : String) (i : CartItem) :
    ∃ cd : CartDoc,
      (cartUpsertPush db u i).carts.find? (fun c => c.user_id == u) = some cd ∧
      cd.user_id = u ∧ cd.items = userCartItems db u ++ [i] := by
  cases h : db.carts.find? (fun c => c.user_id == u) with
  | some c =>
    have hcu : c.user_id = u := eq_of_beq (by simpa using List.find?_some h)
    refine ⟨{ c with items := c.items ++ [i] }, ?_, hcu, ?_⟩
    · simp only [cartUpsertPush, h, Option.isSome_some, if_true]
      rw [find?_updateFirst _ _ (fun a ha => by simpa using ha), h]
      rfl
    · unfold userCartItems
      rw [h]
  | none =>
    refine ⟨{ _id := db.nextId, user_id := u, items := [i] }, ?_, rfl, ?_⟩
    · simp only [cartUpsertPush, h, Option.isSome_none, Bool.false_eq_true, if_false]
      exact find?_append_singleton_self db.carts u _ h rfl
    · unfold userCartItems
      rw [h]
      rfl

theorem add_to_cart_success_shape (db : DB) (u : String) (i : CartItem)
    (hq : ¬ i.quantity < 1) (mid : Nat) (hmid : to_object_id i.menu_item_id = some mid)
    (hmi : (db.menuitems.find? (fun m => m._id == mid)).isSome = true) :
    add_to_cart db u i =
      (.ok (get_cart (cartUpsertPush db u i) u).1, (get_cart (cartUpsertPush db u i) u).2) := by
  simp [add_to_cart, hq, hmid, hmi]

/-- On any successful `add_to_cart`, the response is the full cart for the
user after an unconditional append of the new item, and the stored cart
document agrees with it. -/
theorem add_to_cart_ok (db : DB) (u : String) (i : CartItem) (r : CartResp) (db2 : DB)
    (h : add_to_cart db u i = (.ok r, db2)) :
    r.user_id = u ∧ r.items = userCartItems db u ++ [i] ∧
    userCartItems db2 u = userCartItems db u ++ [i] ∧
    db2.carts.find? (fun c => c.user_id == u) =
      some { _id := r.id, user_id := u, items := r.items } := by
  obtain ⟨cd, hcd, hcdu, hcditems⟩ := cartUpsertPush_find? db u i
  by_cases hq : i.quantity < 1
  · simp [add_to_cart, hq] at h
  · cases hmid : to_object_id i.menu_item_id with
    | none => simp [add_to_cart, hq, hmid] at h
    | some mid =>
      by_cases hmi : (db.menuitems.find? (fun m => m._id == mid)).isSome = true
      · rw [add_to_cart_success_shape db u i hq mid hmid hmi] at h
        injection h with h1 h2
        injection h1 with h1
        rw [get_cart_of_find? _ u cd hcd] at h1 h2
        subst h1
        subst h2
        refine ⟨hcdu, hcditems, ?_, ?_⟩
        · unfold userCartItems
          rw [hcd]
          exact hcditems
        · rw [hcd]
          obtain ⟨cdi, cdu, cdits⟩ := cd
          simp only at hcdu
          rw [hcdu]
      · simp [add_to_cart, hq, hmid, hmi] at h

/-- C5: `add_to_cart` appends unconditionally — two successful additions
of the same cart item leave the user cart holding its previous items
followed by the item twice as two separate entries, never merged and with
no pre-existing entry modified, and the second response shows the same
sequence. -/
theorem addItem_appends_two_entries (db : DB) (u : String) (i : CartItem)
    (r1 : CartResp) (db1 : DB) (r2 : CartResp) (db2 : DB)
    (h1 : add_to_cart db u i = (.ok r1, db1))
    (h2 : add_to_cart db1 u i = (.ok r2, db2)) :
    userCartItems db2 u = userCartItems db u ++ [i, i] ∧
    r2.items = userCartItems db u ++ [i, i] := by
  obtain ⟨-, -, h1items, -⟩ := add_to_cart_ok db u i r1 db1 h1
  obtain ⟨-, h2resp, h2items, -⟩ := add_to_cart_ok db1 u i r2 db2 h2
  constructor
  · rw [h2items, h1items, List.append_assoc]
    rfl
  · rw [h2resp, h1items, List.append_assoc]
    rfl

/-- Evaluation of `addItem_appends_two_entries`: adding `item0` twice for
user "u1" on the seeded store yields exactly the two copies in append
order. -/
theorem addItem_appends_two_entries_witness :
    userCartItems (add_to_cart (add_to_cart db0 "u1" item0).2 "u1" item0).2 "u1" =
      userCartItems db0 "u1" ++ [item0, item0] :=
  (addItem_appends_two_entries db0 "u1" item0
    { id := 1, user_id := "u1", items := [item0] } (add_to_cart db0 "u1" item0).2
    { id := 1, user_id := "u1", items := [item0, item0] }
    (add_to_cart (add_to_cart db0 "u1" item0).2 "u1" item0).2
    rfl rfl).1

/-- C7: for a cart item of valid quantity whose well-formed
`menu_item_id` resolves to no stored menu item, `add_to_cart` fails with
the 404 NotFound error and returns the store unchanged; when it does
resolve, `add_to_cart` succeeds and returns the full updated cart with the
item appended, in agreement with the stored cart document. -/
theorem addItem_notFound_or_updated_cart (db : DB) (u : String) (i : CartItem)
    (hq : i.pydanticValid) :
    (∀ mid, to_object_id i.menu_item_id = some mid →
      db.menuitems.find? (fun m => m._id == mid) = none →
      add_to_cart db u i =
        (.error { status_code := 404, detail := "Menu item not found" }, db)) ∧
    (∀ mid, to_object_id i.menu_item_id = some mid →
      (db.menuitems.find? (fun m => m._id == mid)).isSome = true →
      ∃ r db2, add_to_cart db u i = (.ok r, db2) ∧ r.user_id = u ∧
        r.items = userCartItems db u ++ [i] ∧
        userCartItems db2 u = userCartItems db u ++ [i]) := by
  have hq1 : ¬ i.quantity < 1 := not_lt.mpr hq
  constructor
  · intro mid hmid hnone
    simp [add_to_cart, hq1, hmid, hnone]
  · intro mid hmid hsome
    refine ⟨(get_cart (cartUpsertPush db u i) u).1, (get_cart (cartUpsertPush db u i) u).2,
      add_to_cart_success_shape db u i hq1 mid hmid hsome, ?_⟩
    obtain ⟨ha, hb, hc, -⟩ := add_to_cart_ok db u i _ _
      (add_to_cart_success_shape db u i hq1 mid hmid hsome)
    exact ⟨ha, hb, hc⟩

/-- Evaluation of `addItem_notFound_or_updated_cart`: on the seeded store,
adding an item whose well-formed menu item id (value 1) matches no stored
menu item fails with 404 and leaves the store untouched. -/
theorem addItem_notFound_or_updated_cart_witness :
    add_to_cart db0 "u1" item0Missing =
      (.error { status_code := 404, detail := "Menu item not found" }, db0) :=
  (addItem_notFound_or_updated_cart db0 "u1" item0Missing (by decide)).1 1
    (by decide) (by decide)

theorem find?_clearFirst (u : String) (l : List CartDoc) (c : CartDoc)
    (h : (updateFirst (fun c1 => c1.user_id == u)
        (fun c1 => { c1 with items := [] }) l).find? (fun c1 => c1.user_id == u) = some c) :
    c.items = [] := by
  rw [find?_updateFirst _ _ (fun a ha => by simpa using ha)] at h
  cases hf : l.find? (fun c1 => c1.user_id == u) with
  | none => rw [hf] at h; cases h
  | some x =>
    rw [hf] at h
    injection h with h
    rw [← h]

theorem place_order_success_shape (db : DB) (o : OrderIn) (rid : Nat)
    (hrid : to_object_id o.restaurant_id = some rid) :
    place_order db o =
      (.ok { id := db.nextId, status := "placed" },
        { restaurants := db.restaurants, menuitems := db.menuitems,
          carts := updateFirst (fun c => c.user_id == o.user_id)
            (fun c => { c with items := [] }) db.carts,
          orders :=
            db.orders ++ [{ toOrderIn := o, _id := db.nextId, created_at := db.nextId }],
          nextId := db.nextId + 1 }) := by
  simp [place_order, hrid, create_document_order]

/-- C2: every successful `place_order` inserts the order record and leaves
the item sequence of the cart document found for the placing user empty,
whatever the items of the order were. -/
theorem placeOrder_clears_cart (db : DB) (o : OrderIn) (resp : PlaceOrderResp) (db2 : DB)
    (h : place_order db o = (.ok resp, db2)) :
    (∀ c, db2.carts.find? (fun c1 => c1.user_id == o.user_id) = some c → c.items = []) ∧
    db2.orders = db.orders ++ [{ toOrderIn := o, _id := resp.id, created_at := resp.id }] := by
  cases hrid : to_object_id o.restaurant_id with
  | none => simp [place_order, hrid] at h
  | some rid =>
    rw [place_order_success_shape db o rid hrid] at h
    injection h with h1 h2
    injection h1 with h1
    subst h1
    subst h2
    exact ⟨fun c hc => find?_clearFirst o.user_id db.carts c hc, rfl⟩

/-- Evaluation of `placeOrder_clears_cart`: placing `order0` on the store
whose "u1" cart holds `item0` empties that cart document and appends the
order record. -/
theorem placeOrder_clears_cart_witness :
    ({ _id := 1, user_id := "u1", items := [] } : CartDoc).items = [] ∧
    (place_order dbCart order0).2.orders =
      dbCart.orders ++ [{ toOrderIn := order0, _id := 2, created_at := 2 }] :=
  ⟨(placeOrder_clears_cart dbCart order0 { id := 2, status := "placed" }
      (place_order dbCart order0).2 rfl).1 _ (by decide),
    (placeOrder_clears_cart dbCart order0 { id := 2, status := "placed" }
      (place_order dbCart order0).2 rfl).2⟩

/-- C3: `place_order` fails, with the 400 InvalidArgument error and no
write, exactly when the restaurant id of the order is malformed; on any
well-formed restaurant id it succeeds against every store — no check that
the restaurant or the menu items exist — and persists the caller-supplied
order fields, the total among them, unchanged. -/
theorem placeOrder_trusts_caller (db : DB) (o : OrderIn) :
    (to_object_id o.restaurant_id = none →
      place_order db o = (.error invalidIdError, db)) ∧
    (∀ rid, to_object_id o.restaurant_id = some rid →
      ∃ resp db2 od, place_order db o = (.ok resp, db2) ∧
        db2.orders = db.orders ++ [od] ∧ od.toOrderIn = o ∧ od.total = o.total) := by
  constructor
  · intro hnone
    simp [place_order, hnone]
  · intro rid hrid
    exact ⟨_, _, _, place_order_success_shape db o rid hrid, rfl, rfl, rfl⟩

/-- Evaluation of `placeOrder_trusts_caller`: a malformed restaurant id is
rejected with 400 and no write; `order0`, whose total 24 is never
recomputed, is persisted as given even though the store never checked its
contents. -/
theorem placeOrder_trusts_caller_witness :
    place_order db0 orderBad = (.error invalidIdError, db0) ∧
    (∃ resp db2 od, place_order db0 order0 = (.ok resp, db2) ∧
      db2.orders = db0.orders ++ [od] ∧ od.toOrderIn = order0 ∧ od.total = order0.total) :=
  ⟨(placeOrder_trusts_caller db0 orderBad).1 rfl,
    (placeOrder_trusts_caller db0 order0).2 0 rfl⟩

/-- C10: the response of every successful `place_order` carries the
literal status "placed" whatever status value the submitted order held,
while the persisted order document keeps the caller-supplied status
unchanged. -/
theorem placeOrder_status_placed (db : DB) (o : OrderIn) (resp : PlaceOrderResp) (db2 : DB)
    (h : place_order db o = (.ok resp, db2)) :
    resp.status = "placed" ∧
    ∃ od : OrderDoc, db2.orders = db.orders ++ [od] ∧ od.status = o.status := by
  cases hrid : to_object_id o.restaurant_id with
  | none => simp [place_order, hrid] at h
  | some rid =>
    rw [place_order_success_shape db o rid hrid] at h
    injection h with h1 h2
    injection h1 with h1
    subst h1
    subst h2
    exact ⟨rfl, _, rfl, rfl⟩

/-- Evaluation of `placeOrder_status_placed`: `order0` is submitted with
status "pending"; the response still says "placed" while the stored
document keeps "pending". -/
theorem placeOrder_status_placed_witness :
    ({ id := 2, status := "placed" } : PlaceOrderResp).status = "placed" ∧
    ∃ od : OrderDoc, (place_order dbCart order0).2.orders = dbCart.orders ++ [od] ∧
      od.status = order0.status :=
  placeOrder_status_placed dbCart order0 { id := 2, status := "placed" }
    (place_order dbCart order0).2 rfl

/-- C8: `create_menu_item` fails with the 404 NotFound error and persists
nothing when the well-formed restaurant id resolves to no stored
restaurant, and fails with the 400 InvalidArgument error, also persisting
nothing, when the restaurant id is malformed. -/
theorem createMenuItem_validation (db : DB) (item : MenuItemIn) :
    (to_object_id item.restaurant_id = none →
      create_menu_item db item = (.error invalidIdError, db)) ∧
    (∀ rid, to_object_id item.restaurant_id = some rid →
      db.restaurants.find? (fun r => r._id == rid) = none →
      create_menu_item db item =
        (.error { status_code := 404, detail := "Restaurant not found" }, db)) := by
  constructor
  · intro hnone
    simp [create_menu_item, hnone]
  · intro rid hrid hnone
    simp [create_menu_item, hrid, hnone]

/-- Evaluation of `createMenuItem_validation` on the seeded store: the
malformed id "nope" draws the 400 error and restaurant ObjectId 1, which
no stored restaurant carries, draws the 404 error; both leave the store
unchanged. -/
theorem createMenuItem_validation_witness :
    create_menu_item db0 menuItemInBad = (.error invalidIdError, db0) ∧
    create_menu_item db0 menuItemInMissing =
      (.error { status_code := 404, detail := "Restaurant not found" }, db0) :=
  ⟨(createMenuItem_validation db0 menuItemInBad).1 rfl,
    (createMenuItem_validation db0 menuItemInMissing).2 1 rfl rfl⟩

/-- C9: for every user id and every prior cart contents, `clear_cart`
returns a cart with user id and an empty item sequence, and the store then
holds a cart document for the user — implicitly created when absent — with
empty items and the returned id. -/
theorem clearCart_empties (db : DB) (u : String) :
    (clear_cart db u).1.items = [] ∧ (clear_cart db u).1.user_id = u ∧
    ∃ cd : CartDoc,
      (clear_cart db u).2.carts.find? (fun c => c.user_id == u) = some cd ∧
      cd.items = [] ∧ cd._id = (clear_cart db u).1.id := by
  unfold clear_cart
  cases h : db.carts.find? (fun c => c.user_id == u) with
  | none =>
    have h2 : ({ db with
        carts := updateFirst (fun c => c.user_id == u)
          (fun c => { c with items := [] }) db.carts } : DB).carts.find?
        (fun c => c.user_id == u) = none := by
      show (updateFirst (fun c => c.user_id == u)
        (fun c => { c with items := [] }) db.carts).find? (fun c => c.user_id == u) = none
      rw [updateFirst_of_find?_none _ _ db.carts h]
      exact h
    rw [get_cart_of_find?_none _ u h2]
    refine ⟨rfl, rfl, { _id := db.nextId, user_id := u, items := [] }, ?_, rfl, rfl⟩
    exact find?_append_singleton_self _ u _ h2 rfl
  | some c =>
    have hcu : c.user_id = u := eq_of_beq (by simpa using List.find?_some h)
    have h2 : ({ db with
        carts := updateFirst (fun c => c.user_id == u)
          (fun c => { c with items := [] }) db.carts } : DB).carts.find?
        (fun c => c.user_id == u) = some { c with items := [] } := by
      show (updateFirst (fun c1 => c1.user_id == u)
        (fun c1 => { c1 with items := [] }) db.carts).find? (fun c1 => c1.user_id == u) =
        some { c with items := [] }
      rw [find?_updateFirst _ _ (fun a ha => by simpa using ha), h]
      rfl
    rw [get_cart_of_find? _ u _ h2]
    exact ⟨rfl, hcu, { c with items := [] }, h2, rfl, rfl⟩

/-- Evaluation of `clearCart_empties` on the store whose "u1" cart holds
`item0`: the cleared cart comes back with no items. -/
theorem clearCart_empties_witness :
    (clear_cart dbCart "u1").1.items = [] ∧ (clear_cart dbCart "u1").1.user_id = "u1" :=
  ⟨(clearCart_empties dbCart "u1").1, (clearCart_empties dbCart "u1").2.1⟩

/-- C4: `list_orders` returns exactly the orders of the user — a
permutation of the matching documents — in non-increasing creation-time
order (most recent first). -/
theorem listOrders_sorted_desc (db : DB) (u : String) :
    List.Perm (list_orders db u) (db.orders.filter (fun o => o.user_id == u)) ∧
    List.Sorted createdDesc (list_orders db u) ∧
    ∀ o, o ∈ list_orders db u → o.user_id = u := by
  refine ⟨List.perm_insertionSort _ _, List.sorted_insertionSort _ _, ?_⟩
  intro o ho
  have hmem : o ∈ db.orders.filter (fun o1 => o1.user_id == u) :=
    ((List.perm_insertionSort createdDesc _).mem_iff).mp ho
  exact eq_of_beq (List.mem_filter.mp hmem).2

/-- Evaluation of `listOrders_sorted_desc` on the store holding the placed
`order0`: the listing for "u1" is sorted by descending creation stamp. -/
theorem listOrders_sorted_desc_witness :
    List.Sorted createdDesc (list_orders dbPlaced "u1") :=
  (listOrders_sorted_desc dbPlaced "u1").2.1

end FoodDelivery
